import Mathlib

/-!
Shallow embedding of the congestion-control pass-through sender ("loco") of
BGrewell/quic-go, of the `CongestionAlgo` tag with its generated `String`
method, and of the `NewAckHandler` factory.

Conventions of the embedding:
* Go `protocol.ByteCount` (int64) and `protocol.PacketNumber` (int64) are
  embedded as `Int`.  No arithmetic performed by the embedded code can
  overflow int64 on the value ranges any claim exercises, so the wrap at
  2^63 is not modelled.
* Go `time.Time` is embedded as `Int` (monotonic nanoseconds); the zero
  `time.Time` value is `0`.
* The `logging.ConnectionTracer` interface is embedded as a `Bool`
  (nil / non-nil) on the sender state plus an explicit event log: every
  function that in Go may call `tracer.UpdatedCongestionState(s)` returns,
  next to the new state, the list of states it emitted, in order.
* The collaborator fields of the Go struct `locoSender` that no method of
  `locoSender` ever reads or writes after construction (`hybridSlowStart`,
  `rttStats`, `cubic`, `pacer`, `clock`) are omitted from the state record:
  no embedded operation could depend on or change them.
-/

/-- `logging.CongestionState`.  The `logging` package is not among the
sources; the spec (section 3) lists the values, `SlowStart` first, which is
therefore the zero value of the Go integer enum. -/
inductive CongestionState where
  | slowStart
  | congestionAvoidance
  | recoveryStart
  | applicationLimited
deriving DecidableEq, Repr

/-- Modelled from the spec: the constant `protocol.InvalidPacketNumber` of
the protocol package, which is not among the sources.  Spec section 3: a
sentinel INVALID value, at most 0 in signed form, indicates no packet yet. -/
def InvalidPacketNumber : Int := -1

/-- Modelled from the spec: the constant `protocol.MaxByteCount` of the
protocol package, which is not among the sources.  Spec section 3: the value
MAX_BYTE_COUNT denotes unbounded; embedded as the largest 62-bit value. -/
def MaxByteCount : Int := 2 ^ 62 - 1

/-- State of the Go struct `locoSender`
(src/internal/congestion/algo.go, lines 43-81). -/
structure LocoSender where
  reno : Bool
  largestSentPacketNumber : Int
  largestAckedPacketNumber : Int
  largestSentAtLastCutback : Int
  lastCutbackExitedSlowstart : Bool
  congestionWindow : Int
  slowStartThreshold : Int
  numAckedPackets : Nat
  initialCongestionWindow : Int
  initialMaxCongestionWindow : Int
  maxDatagramSize : Int
  lastState : CongestionState
  hasTracer : Bool
deriving DecidableEq, Repr

/-- `newLocoSender` (algo.go lines 107-136).  Returns the constructed state
together with the tracer events emitted during construction.  Fields not
assigned by the Go composite literal take the Go zero value. -/
def newLocoSender (reno : Bool)
    (initialMaxDatagramSize initialCongestionWindow initialMaxCongestionWindow : Int)
    (hasTracer : Bool) : LocoSender × List CongestionState :=
  let l : LocoSender :=
    { reno := reno
      largestSentPacketNumber := InvalidPacketNumber
      largestAckedPacketNumber := InvalidPacketNumber
      largestSentAtLastCutback := InvalidPacketNumber
      lastCutbackExitedSlowstart := false
      congestionWindow := initialCongestionWindow
      slowStartThreshold := MaxByteCount
      numAckedPackets := 0
      initialCongestionWindow := initialCongestionWindow
      initialMaxCongestionWindow := initialMaxCongestionWindow
      maxDatagramSize := initialMaxDatagramSize
      lastState := CongestionState.slowStart
      hasTracer := hasTracer }
  if hasTracer then
    ({ l with lastState := CongestionState.slowStart }, [CongestionState.slowStart])
  else
    (l, [])

/-- `locoSender.TimeUntilSend` (algo.go lines 139-142): the zero time. -/
def LocoSender.TimeUntilSend (_l : LocoSender) (_bytesInFlight : Int) : Int := 0

/-- `locoSender.HasPacingBudget` (algo.go lines 144-147). -/
def LocoSender.HasPacingBudget (_l : LocoSender) : Bool := true

/-- `locoSender.maxCongestionWindow` (algo.go lines 149-152). -/
def LocoSender.maxCongestionWindow (l : LocoSender) : Int :=
  l.maxDatagramSize * 10000

/-- `locoSender.minCongestionWindow` (algo.go lines 154-157). -/
def LocoSender.minCongestionWindow (l : LocoSender) : Int :=
  l.maxDatagramSize * 1000

/-- `locoSender.OnPacketSent` (algo.go lines 159-167): empty body. -/
def LocoSender.OnPacketSent (l : LocoSender) (_sentTime _bytesInFlight _packetNumber _bytes : Int)
    (_isRetransmittable : Bool) : LocoSender × List CongestionState :=
  (l, [])

/-- `locoSender.CanSend` (algo.go lines 169-172). -/
def LocoSender.CanSend (_l : LocoSender) (_bytesInFlight : Int) : Bool := true

/-- `locoSender.InRecovery` (algo.go lines 174-177). -/
def LocoSender.InRecovery (_l : LocoSender) : Bool := false

/-- `locoSender.InSlowStart` (algo.go lines 179-182). -/
def LocoSender.InSlowStart (_l : LocoSender) : Bool := false

/-- `locoSender.GetCongestionWindow` (algo.go lines 184-187). -/
def LocoSender.GetCongestionWindow (l : LocoSender) : Int :=
  l.maxDatagramSize * 1000000

/-- `locoSender.MaybeExitSlowStart` (algo.go lines 189-191): empty body. -/
def LocoSender.MaybeExitSlowStart (l : LocoSender) : LocoSender × List CongestionState :=
  (l, [])

/-- `locoSender.OnPacketAcked` (algo.go lines 193-200): empty body. -/
def LocoSender.OnPacketAcked (l : LocoSender)
    (_ackedPacketNumber _ackedBytes _priorInFlight _eventTime : Int) :
    LocoSender × List CongestionState :=
  (l, [])

/-- `locoSender.OnPacketLost` (algo.go lines 202-204): empty body. -/
def LocoSender.OnPacketLost (l : LocoSender) (_packetNumber _lostBytes _priorInFlight : Int) :
    LocoSender × List CongestionState :=
  (l, [])

/-- `locoSender.maybeIncreaseCwnd` (algo.go lines 208-215): empty body. -/
def LocoSender.maybeIncreaseCwnd (l : LocoSender)
    (_packetNumber _ackedBytes _priorInFlight _eventTime : Int) :
    LocoSender × List CongestionState :=
  (l, [])

/-- `locoSender.isCwndLimited` (algo.go lines 217-220). -/
def LocoSender.isCwndLimited (_l : LocoSender) (_bytesInFlight : Int) : Bool := false

/-- `locoSender.BandwidthEstimate` (algo.go lines 222-226): bits per second. -/
def LocoSender.BandwidthEstimate (_l : LocoSender) : Int := 100000000000

/-- `locoSender.OnRetransmissionTimeout` (algo.go lines 228-231): empty body. -/
def LocoSender.OnRetransmissionTimeout (l : LocoSender) (_packetsRetransmitted : Bool) :
    LocoSender × List CongestionState :=
  (l, [])

/-- `locoSender.OnConnectionMigration` (algo.go lines 233-235): empty body. -/
def LocoSender.OnConnectionMigration (l : LocoSender) : LocoSender × List CongestionState :=
  (l, [])

/-- `locoSender.maybeTraceStateChange` (algo.go lines 237-243).  Present in
the source but never called by any other `locoSender` method. -/
def LocoSender.maybeTraceStateChange (l : LocoSender) (new : CongestionState) :
    LocoSender × List CongestionState :=
  if l.hasTracer = false ∨ new = l.lastState then (l, [])
  else ({ l with lastState := new }, [new])

/-- `locoSender.SetMaxDatagramSize` (algo.go lines 245-247). -/
def LocoSender.SetMaxDatagramSize (l : LocoSender) (s : Int) :
    LocoSender × List CongestionState :=
  ({ l with maxDatagramSize := s }, [])

/-- One invocation of a mutating method of the `SendAlgorithm` interface on
a `locoSender`, with its Go arguments. -/
inductive LocoOp where
  | onPacketSent (sentTime bytesInFlight packetNumber bytes : Int) (isRetransmittable : Bool)
  | onPacketAcked (ackedPacketNumber ackedBytes priorInFlight eventTime : Int)
  | onPacketLost (packetNumber lostBytes priorInFlight : Int)
  | onRetransmissionTimeout (packetsRetransmitted : Bool)
  | onConnectionMigration
  | maybeExitSlowStart
  | setMaxDatagramSize (s : Int)
deriving DecidableEq, Repr

/-- Dispatch of one mutating operation to the corresponding method. -/
def LocoSender.applyOp (l : LocoSender) : LocoOp → LocoSender × List CongestionState
  | LocoOp.onPacketSent t binf pn b r => l.OnPacketSent t binf pn b r
  | LocoOp.onPacketAcked pn b pif t => l.OnPacketAcked pn b pif t
  | LocoOp.onPacketLost pn b pif => l.OnPacketLost pn b pif
  | LocoOp.onRetransmissionTimeout r => l.OnRetransmissionTimeout r
  | LocoOp.onConnectionMigration => l.OnConnectionMigration
  | LocoOp.maybeExitSlowStart => l.MaybeExitSlowStart
  | LocoOp.setMaxDatagramSize s => l.SetMaxDatagramSize s

/-- Run a sequence of mutating operations, concatenating the tracer events
each one emits. -/
def LocoSender.runOps (l : LocoSender) : List LocoOp → LocoSender × List CongestionState
  | [] => (l, [])
  | op :: ops =>
    let step := l.applyOp op
    let rest := step.1.runOps ops
    (rest.1, step.2 ++ rest.2)

/-- Go: `type CongestionAlgo int` (algo.go line 25). -/
abbrev CongestionAlgo := Int

/-- `ALGO_UNKNOWN` (algo.go lines 27-30, iota). -/
def ALGO_UNKNOWN : CongestionAlgo := 0

/-- `ALGO_CUBIC` (algo.go lines 27-30, iota). -/
def ALGO_CUBIC : CongestionAlgo := 1

/-- The Go constant named with a leading underscore, CongestionAlgo name
(algo.go line 13). -/
def congestionAlgoName : String := "ALGO_UNKNOWNALGO_CUBIC"

/-- The Go constant named with a leading underscore, CongestionAlgo index
(algo.go line 15): `[...]uint8\x7b0, 12, 22\x7d`. -/
def congestionAlgoIndex : List Nat := [0, 12, 22]

/-- Go string slicing `s[a:b]`: defined (does not panic) exactly when
`a ≤ b ≤ len(s)`; the string holds only ASCII, so bytes and characters
coincide. -/
def goStringSlice (s : String) (a b : Nat) : Option String :=
  if a ≤ b ∧ b ≤ s.length then
    some (String.mk ((s.toList.drop a).take (b - a)))
  else
    none

/-- `CongestionAlgo.String` (algo.go lines 17-22).  Go array indexing and
string slicing panic when out of bounds; a panic is embedded as `none`, so
`some` means the Go method returns normally.  `toString` on `Int` renders
the same decimal form as `strconv.FormatInt(int64(i), 10)`. -/
def CongestionAlgoString (i : CongestionAlgo) : Option String :=
  if i < 0 ∨ (congestionAlgoIndex.length : Int) - 1 ≤ i then
    some ("CongestionAlgo(" ++ toString i ++ ")")
  else do
    let a ← congestionAlgoIndex.get? i.toNat
    let b ← congestionAlgoIndex.get? (i.toNat + 1)
    goStringSlice congestionAlgoName a b

/-- Which concrete send algorithm is wired into the sent-packet handler. -/
inductive SenderKind where
  | cubicSender
  | locoSender
deriving DecidableEq, Repr

/-- The sent-packet handler, reduced to the construction arguments the
claims are about. -/
structure SentPacketHandler where
  initialPacketNumber : Int
  maxDatagramSize : Int
  congestion : SenderKind
deriving DecidableEq, Repr

/-- The received-packet handler, reduced to the sent-packet handler it is
constructed over. -/
structure ReceivedPacketHandler where
  sentPackets : SentPacketHandler
deriving DecidableEq, Repr

/-- Modelled from the spec: `newSentPacketHandler` is not among the sources
(only its caller `NewAckHandler` is).  Spec section 4.7: the factory wires
the chosen congestion controller into the sent-packet handler, with
algorithm dispatch Cubic to CubicSender and any other selector path to
LocoSender. -/
def newSentPacketHandler (initialPacketNumber initialMaxDatagramSize : Int)
    (congestionAlgo : CongestionAlgo) : SentPacketHandler :=
  { initialPacketNumber := initialPacketNumber
    maxDatagramSize := initialMaxDatagramSize
    congestion :=
      if congestionAlgo = ALGO_CUBIC then SenderKind.cubicSender
      else SenderKind.locoSender }

/-- Modelled from the spec: `newReceivedPacketHandler` is not among the
sources.  Spec section 4.7: the factory constructs a received-packet handler
over the sent-packet handler. -/
def newReceivedPacketHandler (sph : SentPacketHandler) : ReceivedPacketHandler :=
  { sentPackets := sph }

/-- `NewAckHandler` (src/unnamed/part_002, lines 11-23), with the
collaborators that carry no data relevant to any claim (rttStats,
perspective, tracer, logger, version) elided. -/
def NewAckHandler (initialPacketNumber initialMaxDatagramSize : Int)
    (congestionAlgo : CongestionAlgo) : SentPacketHandler × ReceivedPacketHandler :=
  let sph := newSentPacketHandler initialPacketNumber initialMaxDatagramSize congestionAlgo
  (sph, newReceivedPacketHandler sph)

/-! Helper lemmas shared by the theorems below. -/

/-- No single mutating operation on a `locoSender` emits a tracer event:
every method body is empty except `SetMaxDatagramSize`, and none of them
calls `maybeTraceStateChange`. -/
theorem LocoSender.applyOp_events (l : LocoSender) (op : LocoOp) :
    (l.applyOp op).2 = [] := by
  cases op <;> rfl

/-- No sequence of mutating operations on a `locoSender` emits any tracer
event. -/
theorem LocoSender.runOps_events (l : LocoSender) (ops : List LocoOp) :
    (l.runOps ops).2 = [] := by
  induction ops generalizing l with
  | nil => rfl
  | cons op ops ih => simp [LocoSender.runOps, LocoSender.applyOp_events, ih]

/-- C1: For every locoSender state and every bytes_in_flight value, CanSend
returns true, HasPacingBudget returns true and TimeUntilSend returns the
zero time instant (send now), and this holds after any sequence of mutating
operations applied to any freshly constructed sender. -/
theorem loco_send_now_after_any_ops (reno : Bool) (imds icw imcw : Int)
    (hasTracer : Bool) (ops : List LocoOp) (bytesInFlight bytes : Int) :
    ((newLocoSender reno imds icw imcw hasTracer).1.runOps ops).1.CanSend bytesInFlight = true ∧
    ((newLocoSender reno imds icw imcw hasTracer).1.runOps ops).1.HasPacingBudget = true ∧
    ((newLocoSender reno imds icw imcw hasTracer).1.runOps ops).1.TimeUntilSend bytes = 0 :=
  ⟨rfl, rfl, rfl⟩

/-- C2 counterexample: the claim that min_cwnd ≤ cwnd ≤ max_cwnd holds for
locoSender is false on the code.  For the sender constructed with
maxDatagramSize 1200, GetCongestionWindow returns 1200 · 1,000,000 =
1,200,000,000, which exceeds maxCongestionWindow() = 1200 · 10,000 =
12,000,000. -/
theorem loco_cwnd_exceeds_max_cwnd_counterexample :
    ¬ ((newLocoSender false 1200 14600 12000000 false).1.GetCongestionWindow ≤
       (newLocoSender false 1200 14600 12000000 false).1.maxCongestionWindow) := by
  decide

/-- C2 (amended): for every locoSender state with nonnegative
maxDatagramSize, the lower bound minCongestionWindow ≤ GetCongestionWindow
holds; the upper bound fails strictly whenever maxDatagramSize is positive,
since GetCongestionWindow = 1,000,000 · maxDatagramSize always exceeds
maxCongestionWindow = 10,000 · maxDatagramSize. -/
theorem loco_cwnd_bounds_amended (l : LocoSender) (h : 0 ≤ l.maxDatagramSize) :
    l.minCongestionWindow ≤ l.GetCongestionWindow ∧
      (0 < l.maxDatagramSize → l.maxCongestionWindow < l.GetCongestionWindow) := by
  unfold LocoSender.minCongestionWindow LocoSender.GetCongestionWindow
    LocoSender.maxCongestionWindow
  constructor
  · nlinarith
  · intro hp
    nlinarith

/-- Witness for C2 (amended) at the sender constructed with
maxDatagramSize 1200. -/
theorem loco_cwnd_bounds_amended_witness :
    (newLocoSender false 1200 14600 12000000 false).1.minCongestionWindow ≤
        (newLocoSender false 1200 14600 12000000 false).1.GetCongestionWindow ∧
      (0 < (newLocoSender false 1200 14600 12000000 false).1.maxDatagramSize →
        (newLocoSender false 1200 14600 12000000 false).1.maxCongestionWindow <
          (newLocoSender false 1200 14600 12000000 false).1.GetCongestionWindow) :=
  loco_cwnd_bounds_amended (newLocoSender false 1200 14600 12000000 false).1 (by decide)

/-- C3: For every locoSender state, GetCongestionWindow returns exactly
1,000,000 times the current maxDatagramSize, and after SetMaxDatagramSize s
it returns 1,000,000 · s.  Since the first conjunct is quantified over every
state, the value depends on no other field and on no prior operations. -/
theorem loco_get_congestion_window_value (l : LocoSender) (s : Int) :
    l.GetCongestionWindow = 1000000 * l.maxDatagramSize ∧
    (l.SetMaxDatagramSize s).1.GetCongestionWindow = 1000000 * s :=
  ⟨mul_comm _ _, mul_comm _ _⟩

/-- C4: every mutating operation on a locoSender leaves the whole state
unchanged, except SetMaxDatagramSize s, which produces exactly the same
state with only the maxDatagramSize field replaced by s. -/
theorem loco_frame_effect (l : LocoSender) (op : LocoOp) :
    (l.applyOp op).1 = (match op with
      | LocoOp.setMaxDatagramSize s => { l with maxDatagramSize := s }
      | _ => l) := by
  cases op <;> rfl

/-- C5: construction with a non-nil tracer emits exactly one
UpdatedCongestionState(SlowStart) event, construction with a nil tracer
emits none, and no sequence of subsequent operations ever emits a
congestion-state tracer event. -/
theorem loco_tracer_single_slow_start_event (reno : Bool) (imds icw imcw : Int)
    (hasTracer : Bool) (ops : List LocoOp) :
    (newLocoSender reno imds icw imcw hasTracer).2 =
        (if hasTracer then [CongestionState.slowStart] else []) ∧
    ((newLocoSender reno imds icw imcw hasTracer).1.runOps ops).2 = [] := by
  constructor
  · cases hasTracer <;> rfl
  · exact LocoSender.runOps_events _ ops

/-- C6: NewAckHandler builds the sent-packet handler by
newSentPacketHandler on its arguments and the congestion-algorithm tag,
returns it together with a received-packet handler constructed over that
same sent-packet handler, and the controller wired into the sent-packet
handler is CubicSender exactly for tag ALGO_CUBIC and LocoSender on every
other selector path. -/
theorem new_ack_handler_dispatch (ipn imds : Int) (tag : CongestionAlgo) :
    (NewAckHandler ipn imds tag).1 = newSentPacketHandler ipn imds tag ∧
    (NewAckHandler ipn imds tag).1.congestion =
      (if tag = ALGO_CUBIC then SenderKind.cubicSender else SenderKind.locoSender) ∧
    (NewAckHandler ipn imds tag).2 =
      newReceivedPacketHandler (NewAckHandler ipn imds tag).1 :=
  ⟨rfl, rfl, rfl⟩

/-- C7: a freshly constructed locoSender has slowStartThreshold equal to
MAX_BYTE_COUNT, congestionWindow equal to the construction-time initial
congestion window, and the three packet-number fields all equal to the
INVALID sentinel. -/
theorem loco_fresh_state_fields (reno : Bool) (imds icw imcw : Int) (hasTracer : Bool) :
    (newLocoSender reno imds icw imcw hasTracer).1.slowStartThreshold = MaxByteCount ∧
    (newLocoSender reno imds icw imcw hasTracer).1.congestionWindow = icw ∧
    (newLocoSender reno imds icw imcw hasTracer).1.largestSentPacketNumber =
      InvalidPacketNumber ∧
    (newLocoSender reno imds icw imcw hasTracer).1.largestAckedPacketNumber =
      InvalidPacketNumber ∧
    (newLocoSender reno imds icw imcw hasTracer).1.largestSentAtLastCutback =
      InvalidPacketNumber := by
  cases hasTracer <;> exact ⟨rfl, rfl, rfl, rfl, rfl⟩

/-- C8: for every locoSender state reachable by any sequence of operations,
including losses and retransmission timeouts, InSlowStart returns false and
InRecovery returns false. -/
theorem loco_never_slow_start_or_recovery (reno : Bool) (imds icw imcw : Int)
    (hasTracer : Bool) (ops : List LocoOp) :
    ((newLocoSender reno imds icw imcw hasTracer).1.runOps ops).1.InSlowStart = false ∧
    ((newLocoSender reno imds icw imcw hasTracer).1.runOps ops).1.InRecovery = false :=
  ⟨rfl, rfl⟩

/-- C9: for every locoSender state whatsoever, BandwidthEstimate returns
the fixed constant 100,000,000,000 bits per second, hence independent of
the RTT statistics and of any prior operations. -/
theorem loco_bandwidth_estimate_constant (l : LocoSender) :
    l.BandwidthEstimate = 100000000000 :=
  rfl

/-- C10: CongestionAlgo.String is total (never indexes out of bounds, i.e.
never returns the `none` that embeds a Go panic) and returns ALGO_UNKNOWN at
0, ALGO_CUBIC at 1, and the decimal rendering wrapped in CongestionAlgo(...)
for every other integer, including negative values. -/
theorem congestion_algo_string_total (i : Int) :
    CongestionAlgoString i =
      some (if i = 0 then "ALGO_UNKNOWN" else if i = 1 then "ALGO_CUBIC"
        else "CongestionAlgo(" ++ toString i ++ ")") := by
  have h : i < 0 ∨ i = 0 ∨ i = 1 ∨ 2 ≤ i := by omega
  rcases h with h | h | h | h
  · unfold CongestionAlgoString
    rw [if_pos (Or.inl h), if_neg (show ¬i = 0 by omega), if_neg (show ¬i = 1 by omega)]
  · subst h; decide
  · subst h; decide
  · unfold CongestionAlgoString
    rw [if_pos (Or.inr (show (congestionAlgoIndex.length : Int) - 1 ≤ i by
        simp [congestionAlgoIndex]; omega)),
      if_neg (show ¬i = 0 by omega), if_neg (show ¬i = 1 by omega)]
